import Mathlib

/-!
# Glow animation of the admin site title (`static/js/admin-anim1.js`)

The script keeps two closure variables, `glow` and `increasing`, and a
callback `animateGlow` that moves `glow` by `0.15` per animation frame,
writes a `text-shadow` value and registers itself for the next frame.

Numbers are modelled as exact rationals: the literal `0.15` is the rational
`3/20`, and no rounding takes place.
-/

namespace AdminAnim

/-! ## Closure variables and the body of `animateGlow` -/

/-- The two `let` variables captured by `animateGlow`. -/
structure State where
  glow : ℚ
  increasing : Bool
deriving DecidableEq, Repr

/-- The values given by `let glow = 0; let increasing = true;`. -/
def initial : State := { glow := 0, increasing := true }

/-- The `if (increasing) … else …` block of `animateGlow`: the update of the
two variables made by one invocation. -/
def stepGlow (s : State) : State :=
  if s.increasing then
    let s1 : State := { s with glow := s.glow + 0.15 }
    if s1.glow ≥ 8 then { s1 with increasing := false } else s1
  else
    let s1 : State := { s with glow := s.glow - 0.15 }
    if s1.glow ≤ 0 then { s1 with increasing := true } else s1

/-- The variables after `n` invocations of `animateGlow`, starting from `s`. -/
def simulate : Nat → State → State
  | 0, s => s
  | n + 1, s => stepGlow (simulate n s)

/-! ## Rendering of the style value -/

/-- Digits after the decimal point of `r / d` (with `r < d`), at most `fuel` of them. -/
def fracDigits : Nat → Nat → Nat → List Char
  | 0, _, _ => []
  | fuel + 1, r, d =>
    if r = 0 then [] else Char.ofNat (48 + r * 10 / d) :: fracDigits fuel (r * 10 % d) d

/-- Conversion of a number to text as done by a template literal, for numbers
with a short finite decimal expansion: an optional sign, the integer part and,
when the number is not an integer, a point and the fractional digits. -/
def numberToString (q : ℚ) : String :=
  let n := q.num.natAbs
  let d := q.den
  (if q < 0 then "-" else "") ++ toString (n / d) ++
    (if n % d = 0 then "" else "." ++ String.mk (fracDigits 20 (n % d) d))

/-- The template literal assigned to `titleText.style.textShadow`. -/
def textShadow (glow : ℚ) : String :=
  "0 0 " ++ numberToString glow ++ "px rgba(76, 175, 80, 0.6)"

/-! ## Effects, the page and the frame scheduler -/

/-- A handle to a DOM element. -/
abbrev Element := Nat

/-- The observable actions of the script. -/
inductive Effect where
  /-- An assignment `el.style.textShadow = value`. -/
  | setTextShadow (el : Element) (value : String)
  /-- A call `requestAnimationFrame(animateGlow)`. -/
  | requestAnimationFrame
deriving DecidableEq, Repr

/-- The page as seen by the script. -/
structure World where
  /-- The closure of `animateGlow`: target element and variables; `none` when
  the handler returned before creating them. -/
  closure : Option (Element × State)
  /-- All effects performed so far, oldest first. -/
  trace : List Effect
  /-- Frame callbacks registered and not yet run (each one is `animateGlow`). -/
  pending : Nat
  /-- Number of invocations of `animateGlow` so far. -/
  invocations : Nat
deriving DecidableEq, Repr

/-- The page before the handler runs. -/
def World.empty : World := { closure := none, trace := [], pending := 0, invocations := 0 }

/-- The effects of one invocation of `animateGlow` that leaves the variables at `s`. -/
def frameEffects (el : Element) (s : State) : List Effect :=
  [Effect.setTextShadow el (textShadow s.glow), Effect.requestAnimationFrame]

/-- Number of frame registrations in a list of effects. -/
def registrations (es : List Effect) : Nat :=
  es.countP (fun e => e = Effect.requestAnimationFrame)

/-- Number of style writes in a list of effects. -/
def styleWrites (es : List Effect) : Nat :=
  es.countP (fun e => match e with
    | Effect.setTextShadow _ _ => true
    | Effect.requestAnimationFrame => false)

/-- One invocation of `animateGlow` with closure `(el, s)`: update the
variables, write the style, register the next frame. -/
def animateGlow (el : Element) (s : State) (w : World) : World :=
  let s1 := stepGlow s
  let es := frameEffects el s1
  { closure := some (el, s1)
    trace := w.trace ++ es
    pending := w.pending + registrations es
    invocations := w.invocations + 1 }

/-- The `DOMContentLoaded` handler, given the document's `querySelector`. -/
def onDOMContentLoaded (querySelector : String → Option Element) : World :=
  match querySelector "#site-name a span" with
  | none => World.empty
  | some titleText => animateGlow titleText initial World.empty

/-- Run one registered callback. -/
def runCallback (w : World) : World :=
  match w.closure with
  | none => w
  | some (el, s) => animateGlow el s w

/-- Run `n` registered callbacks one after the other. -/
def runCallbacks : Nat → World → World
  | 0, w => w
  | n + 1, w => runCallbacks n (runCallback w)

/-- One animation frame: every callback registered before the frame runs
once; callbacks registered during the frame wait for the next one. -/
def runFrame (w : World) : World :=
  runCallbacks w.pending { w with pending := 0 }

/-- The page after the handler and `k` animation frames. -/
def afterFrames (querySelector : String → Option Element) : Nat → World
  | 0 => onDOMContentLoaded querySelector
  | k + 1 => runFrame (afterFrames querySelector k)

/-! ## Auxiliary definitions for the statements -/

/-- The effects of the first `n` invocations from the initial values. -/
def expectedTrace (el : Element) : Nat → List Effect
  | 0 => []
  | n + 1 => expectedTrace el n ++ frameEffects el (simulate (n + 1) initial)

/-- A document without the title element. -/
def emptyDocument : String → Option Element := fun _ => none

/-- A document whose title span is element `1`. -/
def adminDocument : String → Option Element :=
  fun sel => if sel = "#site-name a span" then some 1 else none

/-- The in-range predicate: a rising `glow` is strictly between `-0.15` and
`8`, a falling `glow` strictly between `0` and `8.15`. -/
def Inv (s : State) : Prop :=
  (s.increasing = true → -0.15 < s.glow ∧ s.glow < 8) ∧
    (s.increasing = false → 0 < s.glow ∧ s.glow < 8.15)

instance : DecidablePred Inv := fun s => by unfold Inv; exact inferInstance

/-! ## The variable update -/

theorem step_eq : (0.15 : ℚ) = 3 / 20 := by norm_num

theorem stepGlow_rising (g : ℚ) :
    stepGlow ⟨g, true⟩ = ⟨g + 0.15, decide (g + 0.15 < 8)⟩ := by
  by_cases h : g + 0.15 < 8
  · have h2 : ¬ (8 ≤ g + 0.15) := not_le.mpr h
    simp [stepGlow, h, h2]
  · have h2 : 8 ≤ g + 0.15 := not_lt.mp h
    simp [stepGlow, h, h2]

theorem stepGlow_falling (g : ℚ) :
    stepGlow ⟨g, false⟩ = ⟨g - 0.15, decide (g - 0.15 ≤ 0)⟩ := by
  by_cases h : g - 0.15 ≤ 0
  · simp [stepGlow, h]
  · simp [stepGlow, h]

theorem simulate_add (a b : Nat) (s : State) :
    simulate (a + b) s = simulate a (simulate b s) := by
  induction a with
  | zero => simp [simulate]
  | succ a ih => rw [Nat.add_right_comm, simulate, ih, simulate]

theorem simulate_rising (k : Nat) (hk : k ≤ 54) :
    simulate k initial = ⟨0.15 * k, decide (k < 54)⟩ := by
  induction k with
  | zero => simp [simulate, initial]
  | succ k ih =>
    have hk1 : k < 54 := by omega
    rw [simulate, ih (by omega), decide_eq_true hk1, stepGlow_rising]
    have hq : (k : ℚ) + 1 ≤ 54 := by exact_mod_cast hk
    congr 1
    · push_cast; ring
    · by_cases h : k + 1 < 54
      · have hq2 : (k : ℚ) + 1 ≤ 53 := by exact_mod_cast (show k + 1 ≤ 53 by omega)
        have : (0.15 : ℚ) * k + 0.15 < 8 := by rw [step_eq]; linarith
        simp [h, this]
      · have hq2 : (54 : ℚ) ≤ (k : ℚ) + 1 := by exact_mod_cast (show 54 ≤ k + 1 by omega)
        have : ¬ ((0.15 : ℚ) * k + 0.15 < 8) := by rw [step_eq]; intro hh; linarith
        simp [h, this]

theorem simulate_falling (k : Nat) (hk : k ≤ 54) :
    simulate (k + 54) initial = ⟨8.1 - 0.15 * k, decide (k = 54)⟩ := by
  induction k with
  | zero =>
    rw [Nat.zero_add, simulate_rising 54 (le_refl _)]
    congr 1
    norm_num
  | succ k ih =>
    have hk1 : ¬ (k = 54) := by omega
    rw [Nat.add_right_comm, simulate, ih (by omega), decide_eq_false hk1, stepGlow_falling]
    congr 1
    · push_cast; ring
    · by_cases h : k + 1 = 54
      · have hq2 : (k : ℚ) + 1 = 54 := by exact_mod_cast h
        have : (8.1 : ℚ) - 0.15 * k - 0.15 ≤ 0 := by
          rw [step_eq]; norm_num; linarith
        simp [h, this]
      · have hq2 : (k : ℚ) + 1 ≤ 53 := by exact_mod_cast (show k + 1 ≤ 53 by omega)
        have : ¬ ((8.1 : ℚ) - 0.15 * k - 0.15 ≤ 0) := by
          rw [step_eq]; norm_num; linarith
        simp [h, this]

theorem simulate_cycle : simulate 108 initial = initial := by
  rw [show (108 : Nat) = 54 + 54 from rfl, simulate_falling 54 (le_refl _)]
  simp [initial]; norm_num

theorem simulate_add_period (n : Nat) :
    simulate (n + 108) initial = simulate n initial := by
  rw [simulate_add, simulate_cycle]

theorem simulate_mod (n : Nat) : simulate n initial = simulate (n % 108) initial := by
  induction n using Nat.strong_induction_on with
  | _ n ih =>
    by_cases h : n < 108
    · rw [Nat.mod_eq_of_lt h]
    · obtain ⟨m, rfl⟩ : ∃ m, n = m + 108 := ⟨n - 108, by omega⟩
      rw [simulate_add_period, ih m (by omega), Nat.add_mod_right]

/-- Closed form of the variables after `n` invocations: a triangle wave. -/
theorem simulate_closed (n : Nat) :
    simulate n initial =
      ⟨0.15 * (min (n % 108) (108 - n % 108) : Nat), decide (n % 108 < 54)⟩ := by
  rw [simulate_mod]
  have hm : n % 108 < 108 := Nat.mod_lt _ (by decide)
  generalize n % 108 = m at hm
  by_cases h : m ≤ 54
  · rw [simulate_rising m h, Nat.min_eq_left (by omega)]
  · obtain ⟨k, rfl⟩ : ∃ k, m = k + 54 := ⟨m - 54, by omega⟩
    have hk : k ≤ 54 := by omega
    rw [simulate_falling k hk, Nat.min_eq_right (by omega)]
    have e : 108 - (k + 54) = 54 - k := by omega
    have hk1 : ¬ (k + 54 < 54) := by omega
    rw [e, decide_eq_false hk1]
    congr 1
    · rw [Nat.cast_sub hk]; push_cast; rw [step_eq]; norm_num; ring
    · by_cases h54 : k = 54
      · omega
      · simp [h54]

/-! ## Oscillation from the initial values -/

/-- C1: after any number `N` of invocations from `glow = 0`,
`increasing = true`, the value of `glow` lies between `-0.15` and `8.15`. -/
theorem bounded_oscillation (N : Nat) :
    -0.15 ≤ (simulate N initial).glow ∧ (simulate N initial).glow ≤ 8.15 := by
  rw [simulate_closed]
  have h1 : min (N % 108) (108 - N % 108) ≤ 54 := by omega
  generalize min (N % 108) (108 - N % 108) = m at h1
  have h2 : (m : ℚ) ≤ 54 := by exact_mod_cast h1
  have h3 : (0 : ℚ) ≤ (m : ℚ) := Nat.cast_nonneg _
  simp only [step_eq]
  constructor
  · linarith
  · norm_num; linarith

/-- C3: after one invocation from any values, a new `glow` of at least `8`
comes with `increasing = false`, and a new `glow` of at most `0` comes with
`increasing = true`. -/
theorem direction_correctness (s : State) :
    ((stepGlow s).glow ≥ 8 → (stepGlow s).increasing = false) ∧
      ((stepGlow s).glow ≤ 0 → (stepGlow s).increasing = true) := by
  obtain ⟨g, inc⟩ := s
  cases inc
  · rw [stepGlow_falling]
    constructor
    · intro h
      have : ¬ (g - 0.15 ≤ 0) := by
        intro h0
        have h8 : (8 : ℚ) ≤ g - 0.15 := h
        linarith
      simp [this]
    · intro h
      have h0 : g - 0.15 ≤ 0 := h
      simp [h0]
  · rw [stepGlow_rising]
    constructor
    · intro h
      have h8 : ¬ (g + 0.15 < 8) := not_lt.mpr h
      simp [h8]
    · intro h
      have h0 : g + 0.15 ≤ 0 := h
      have : g + 0.15 < 8 := by linarith
      simp [this]

/-- C5: from `glow = 0`, `increasing = true` the flag is still `true` after
each of the first 53 invocations, after 54 invocations `glow = 8.1` and
`increasing = false`, and 54 is the first count at which `glow` is at least `8`. -/
theorem first_flip :
    (∀ n : Nat, n ≤ 53 → (simulate n initial).increasing = true) ∧
      simulate 54 initial = ⟨8.1, false⟩ ∧
      (∀ n : Nat, n < 54 → (simulate n initial).glow < 8) ∧
      8 ≤ (simulate 54 initial).glow := by
  refine ⟨?_, ?_, ?_, ?_⟩
  · intro n hn
    rw [simulate_rising n (by omega)]
    simp
    omega
  · rw [simulate_rising 54 (le_refl _)]
    congr 1
    norm_num
  · intro n hn
    rw [simulate_rising n (by omega)]
    have : (n : ℚ) ≤ 53 := by exact_mod_cast (show n ≤ 53 by omega)
    simp only [step_eq]
    linarith
  · rw [simulate_rising 54 (le_refl _)]
    norm_num

/-! ## The written style value -/

theorem registrations_frameEffects (el : Element) (s : State) :
    registrations (frameEffects el s) = 1 := by
  simp [registrations, frameEffects]

theorem styleWrites_frameEffects (el : Element) (s : State) :
    styleWrites (frameEffects el s) = 1 := by
  simp [styleWrites, frameEffects]

theorem registrations_expectedTrace (el : Element) (n : Nat) :
    registrations (expectedTrace el n) = n := by
  induction n with
  | zero => rfl
  | succ n ih =>
    have h := registrations_frameEffects el (simulate (n + 1) initial)
    unfold registrations at ih h ⊢
    rw [expectedTrace, List.countP_append, ih, h]

theorem styleWrites_expectedTrace (el : Element) (n : Nat) :
    styleWrites (expectedTrace el n) = n := by
  induction n with
  | zero => rfl
  | succ n ih =>
    have h := styleWrites_frameEffects el (simulate (n + 1) initial)
    unfold styleWrites at ih h ⊢
    rw [expectedTrace, List.countP_append, ih, h]

theorem afterFrames_none (q : String → Option Element)
    (h : q "#site-name a span" = none) (k : Nat) : afterFrames q k = World.empty := by
  induction k with
  | zero => simp [afterFrames, onDOMContentLoaded, h]
  | succ k ih => rw [afterFrames, ih]; rfl

theorem afterFrames_some (q : String → Option Element) (el : Element)
    (h : q "#site-name a span" = some el) (k : Nat) :
    afterFrames q k =
      { closure := some (el, simulate (k + 1) initial)
        trace := expectedTrace el (k + 1)
        pending := 1
        invocations := k + 1 } := by
  induction k with
  | zero =>
    simp [afterFrames, onDOMContentLoaded, h, animateGlow, World.empty, expectedTrace,
      simulate, registrations_frameEffects]
  | succ k ih =>
    rw [afterFrames, ih]
    simp [runFrame, runCallbacks, runCallback, animateGlow, registrations_frameEffects]
    constructor
    · rfl
    · rfl

/-- C7: when the query for `"#site-name a span"` finds no element, the
handler leaves the page untouched: no style write, no frame registration, no
invocation of `animateGlow`, and no later frame changes that; when the query
finds an element, the handler performs at least one style write. -/
theorem noop_on_missing_target (querySelector : String → Option Element) :
    (querySelector "#site-name a span" = none →
        onDOMContentLoaded querySelector = World.empty ∧
        styleWrites (onDOMContentLoaded querySelector).trace = 0 ∧
        registrations (onDOMContentLoaded querySelector).trace = 0 ∧
        (onDOMContentLoaded querySelector).pending = 0 ∧
        (onDOMContentLoaded querySelector).invocations = 0 ∧
        ∀ k : Nat, afterFrames querySelector k = World.empty) ∧
      (∀ el : Element, querySelector "#site-name a span" = some el →
        1 ≤ styleWrites (onDOMContentLoaded querySelector).trace) := by
  constructor
  · intro h
    have h0 := afterFrames_none querySelector h 0
    rw [afterFrames] at h0
    rw [h0]
    exact ⟨rfl, rfl, rfl, rfl, rfl, afterFrames_none querySelector h⟩
  · intro el h
    have h0 := afterFrames_some querySelector el h 0
    rw [afterFrames] at h0
    rw [h0]
    simp only
    rw [styleWrites_expectedTrace]

/-- C7 at two concrete documents: one without the title element, one with it. -/
theorem noop_on_missing_target_witness :
    (emptyDocument "#site-name a span" = none ∧
        onDOMContentLoaded emptyDocument = World.empty) ∧
      (adminDocument "#site-name a span" = some 1 ∧
        1 ≤ styleWrites (onDOMContentLoaded adminDocument).trace) :=
  ⟨⟨rfl, ((noop_on_missing_target emptyDocument).1 rfl).1⟩,
    ⟨by decide, (noop_on_missing_target adminDocument).2 1 (by decide)⟩⟩

theorem Inv_stepGlow (s : State) (h : Inv s) : Inv (stepGlow s) := by
  have e1 : (0.15 : ℚ) = 3 / 20 := by norm_num
  have e2 : (8.15 : ℚ) = 163 / 20 := by norm_num
  obtain ⟨g, inc⟩ := s
  unfold Inv at h
  simp only [e1, e2] at h
  cases inc
  · obtain ⟨hlo, hhi⟩ := h.2 rfl
    rw [stepGlow_falling]
    unfold Inv
    simp only [e1, e2]
    constructor
    · intro hd
      have h0 : g - 3 / 20 ≤ 0 := of_decide_eq_true hd
      constructor <;> linarith
    · intro hd
      have h0 : ¬ (g - 3 / 20 ≤ 0) := of_decide_eq_false hd
      have h1 : 0 < g - 3 / 20 := not_le.mp h0
      constructor <;> linarith
  · obtain ⟨hlo, hhi⟩ := h.1 rfl
    rw [stepGlow_rising]
    unfold Inv
    simp only [e1, e2]
    constructor
    · intro hd
      have h8 : g + 3 / 20 < 8 := of_decide_eq_true hd
      constructor <;> linarith
    · intro hd
      have h8 : ¬ (g + 3 / 20 < 8) := of_decide_eq_false hd
      have h1 : 8 ≤ g + 3 / 20 := not_lt.mp h8
      constructor <;> linarith

theorem Inv_simulate (s : State) (h : Inv s) (n : Nat) : Inv (simulate n s) := by
  induction n with
  | zero => exact h
  | succ n ih => exact Inv_stepGlow _ ih

theorem Inv_glow_bounds (s : State) (h : Inv s) : -0.15 < s.glow ∧ s.glow < 8.15 := by
  obtain ⟨g, inc⟩ := s
  unfold Inv at h
  simp only [step_eq] at h ⊢
  cases inc
  · have hg := h.2 rfl
    norm_num at hg ⊢
    constructor <;> linarith
  · have hg := h.1 rfl
    norm_num at hg ⊢
    constructor <;> linarith

theorem Inv_turns_down (s : State) (h : Inv s) (h8 : s.glow ≥ 8) :
    (stepGlow s).glow < s.glow := by
  obtain ⟨g, inc⟩ := s
  cases inc
  · rw [stepGlow_falling]
    simp only [step_eq]
    linarith
  · have hg := (h.1 rfl).2
    have h8q : (8 : ℚ) ≤ g := h8
    exact absurd hg (not_lt.mpr h8q)

theorem Inv_turns_up (s : State) (h : Inv s) (h0 : s.glow ≤ 0) :
    s.glow < (stepGlow s).glow := by
  obtain ⟨g, inc⟩ := s
  cases inc
  · have hg := (h.2 rfl).1
    have h0q : g ≤ 0 := h0
    exact absurd hg (not_lt.mpr h0q)
  · rw [stepGlow_rising]
    simp only [step_eq]
    linarith

/-- C9: the in-range predicate `Inv` is kept by every invocation; so from
any values satisfying it, at every later invocation `glow` is above `8` by
less than `0.15` and below `0` by less than `0.15`, a value of at least `8`
is followed by a strictly smaller one and a value of at most `0` by a
strictly larger one. -/
theorem overshoot_bounded (s : State) (h : Inv s) :
    Inv (stepGlow s) ∧
      ∀ n : Nat, Inv (simulate n s) ∧
        (simulate n s).glow < 8 + 0.15 ∧ 0 - 0.15 < (simulate n s).glow ∧
        ((simulate n s).glow ≥ 8 → (simulate (n + 1) s).glow < (simulate n s).glow) ∧
        ((simulate n s).glow ≤ 0 → (simulate n s).glow < (simulate (n + 1) s).glow) := by
  refine ⟨Inv_stepGlow s h, fun n => ?_⟩
  have hn := Inv_simulate s h n
  have hb := Inv_glow_bounds _ hn
  refine ⟨hn, ?_, ?_, ?_, ?_⟩
  · have := hb.2
    norm_num at this ⊢
    exact this
  · have := hb.1
    norm_num at this ⊢
    exact this
  · intro h8
    exact Inv_turns_down _ hn h8
  · intro h0
    exact Inv_turns_up _ hn h0

/-- C9 at the values `glow = 7.9`, `increasing = true`: they are in range,
the next value `8.05` is in range and is followed by a smaller one. -/
theorem overshoot_bounded_witness :
    Inv ⟨7.9, true⟩ ∧ Inv (stepGlow ⟨7.9, true⟩) ∧
      (simulate 1 ⟨7.9, true⟩).glow < 8 + 0.15 := by
  have h : Inv ⟨7.9, true⟩ := by
    unfold Inv
    norm_num
  exact ⟨h, (overshoot_bounded ⟨7.9, true⟩ h).1, ((overshoot_bounded ⟨7.9, true⟩ h).2 1).2.1⟩

/-- C10: every invocation of `animateGlow`, whatever the variables, appends
exactly one style write followed by exactly one frame registration; with the
target present, after `k` frames exactly `k + 1` invocations have run, the
variables are those of `k + 1` updates, exactly one callback is pending and
the trace holds `k + 1` writes and `k + 1` registrations. -/
theorem self_rescheduling (el : Element) (s : State) (w : World) :
    (animateGlow el s w).trace =
        w.trace ++ [Effect.setTextShadow el (textShadow (stepGlow s).glow),
          Effect.requestAnimationFrame] ∧
      (animateGlow el s w).pending = w.pending + 1 ∧
      (animateGlow el s w).invocations = w.invocations + 1 ∧
      ∀ querySelector : String → Option Element,
        querySelector "#site-name a span" = some el →
        ∀ k : Nat,
          (afterFrames querySelector k).invocations = k + 1 ∧
          (afterFrames querySelector k).pending = 1 ∧
          (afterFrames querySelector k).closure = some (el, simulate (k + 1) initial) ∧
          styleWrites (afterFrames querySelector k).trace = k + 1 ∧
          registrations (afterFrames querySelector k).trace = k + 1 ∧
          (afterFrames querySelector (k + 1)).trace =
            (afterFrames querySelector k).trace ++
              [Effect.setTextShadow el (textShadow (simulate (k + 2) initial).glow),
                Effect.requestAnimationFrame] := by
  refine ⟨rfl, ?_, rfl, ?_⟩
  · simp only [animateGlow, registrations_frameEffects]
  · intro q hq k
    rw [afterFrames_some q el hq k, afterFrames_some q el hq (k + 1)]
    exact ⟨rfl, rfl, rfl, styleWrites_expectedTrace el (k + 1),
      registrations_expectedTrace el (k + 1), rfl⟩

/-- C10 at a concrete document and three frames. -/
theorem self_rescheduling_witness :
    adminDocument "#site-name a span" = some 1 ∧
      (afterFrames adminDocument 3).invocations = 4 ∧
      (afterFrames adminDocument 3).pending = 1 :=
  ⟨by decide,
    (((self_rescheduling 1 initial World.empty).2.2.2 adminDocument (by decide)) 3).1,
    (((self_rescheduling 1 initial World.empty).2.2.2 adminDocument (by decide)) 3).2.1⟩

/-! ## Closed form -/

end AdminAnim
